import Mathlib

/-!
Shallow embedding of the SOCCER-SCANNER aggregation and scoring engine
(`src/app.py`) together with proofs about the claims of its specification.

Modelling conventions:
* Python dict lookups `d.get(k, default)` on required string fields are
  modelled by total record fields holding the defaulted value.
* Calendar dates and timestamps are modelled by integers (day numbers),
  ordered as the parsed `datetime.date` values are; ISO-8601 parsing
  (`datetime.fromisoformat`, which raises on malformed input) is modelled
  by an abstract function `String → Option Int`, `none` meaning the parse
  raised; theorems quantify over it.
* Python's stable in-place `list.sort(key=...)` is modelled by
  `stableSort` (a stable insertion sort — any stable sort computes the
  same list) with the corresponding (total, transitive) boolean
  comparator; `reverse=True` sorts by the flipped comparator, which has
  exactly Python's stable-descending semantics.
* Exact real arithmetic of `round(x, 1)` is modelled as an integer count
  of tenths with round-half-to-even (Python 3 rounding); float
  representation error is ignored (it does not affect any value a claim
  mentions).
-/

/-- A match record as consumed by the scorer and the matches-today pipeline:
the fields `calculate_match_importance`, `determine_tv_coverage`,
`estimate_attendance`, `check_rivalry_factor` and `get_matches_today` read,
with the `.get(..., '')` defaults already applied. `date` models the ESPN
`'date'` key (absent on normalized records), `utcDate` the canonical
`'utcDate'` key; both optional, as the pipeline probes them with `in`. -/
structure RawMatch where
  date : Option String
  utcDate : Option String
  status : String
  stage : String
  venue : String
  competition : String
  homeTeam : String
  awayTeam : String
deriving DecidableEq

/-- Lookup in an association-list model of a Python dict literal
(`table.get(key)`). -/
def tableLookup (t : List (String × Nat)) (k : String) : Option Nat :=
  (t.find? (fun p => p.1 == k)).map (fun p => p.2)

/-- The `competition_scores` dict of `calculate_match_importance`
(src/app.py lines 945-986). -/
def competition_scores : List (String × Nat) :=
  [("Premier League", 35),
   ("UEFA Champions League", 40),
   ("FIFA World Cup", 50),
   ("European Championship", 45),
   ("La Liga", 32), ("Primera Division", 32),
   ("Bundesliga", 30),
   ("Serie A", 30),
   ("Ligue 1", 28),
   ("UEFA Europa League", 25),
   ("UEFA Conference League", 20),
   ("Copa Libertadores", 25),
   ("Eredivisie", 22),
   ("Primeira Liga", 20),
   ("Pro League", 18),
   ("Austrian Bundesliga", 16),
   ("Süper Lig", 18),
   ("Scottish Premiership", 15),
   ("Championship", 18),
   ("Segunda División", 15),
   ("2. Bundesliga", 16),
   ("Serie B", 14),
   ("Brasileirão", 20),
   ("Liga Profesional", 18),
   ("Copa del Rey", 15),
   ("FA Cup", 15),
   ("DFB-Pokal", 12),
   ("Coppa Italia", 12),
   ("Coupe de France", 10),
   ("MLS", 12),
   ("Liga MX", 14),
   ("J1 League", 10),
   ("K League 1", 8),
   ("Campeonato Brasileiro Série A", 20)]

/-- The `big_clubs` list of `calculate_match_importance`
(src/app.py lines 993-1030). -/
def big_clubs : List String :=
  ["Manchester United", "Manchester City", "Liverpool", "Arsenal", "Chelsea", "Tottenham",
   "Newcastle United", "Aston Villa", "West Ham United",
   "Real Madrid", "Barcelona", "Atletico Madrid", "Sevilla", "Real Betis", "Villarreal",
   "Bayern Munich", "Borussia Dortmund", "RB Leipzig", "Bayer Leverkusen", "Eintracht Frankfurt",
   "Juventus", "AC Milan", "Inter Milan", "AS Roma", "Napoli", "Lazio", "Atalanta", "Fiorentina",
   "Paris Saint-Germain", "Olympique Marseille", "Olympique Lyon", "AS Monaco", "Lille",
   "Ajax", "PSV Eindhoven", "Feyenoord", "AZ Alkmaar",
   "Benfica", "FC Porto", "Sporting CP", "SC Braga",
   "Club Brugge", "Anderlecht", "Standard Liège", "Genk",
   "Galatasaray", "Fenerbahce", "Besiktas", "Trabzonspor",
   "Celtic", "Rangers", "Aberdeen",
   "Flamengo", "Palmeiras", "Santos", "São Paulo", "Corinthians", "Grêmio", "Internacional",
   "River Plate", "Boca Juniors", "Racing Club", "Independiente", "San Lorenzo"]

/-- The `stage_boosts` dict of `calculate_match_importance`
(src/app.py lines 1046-1053). -/
def stage_boosts : List (String × Nat) :=
  [("FINAL", 20),
   ("SEMI_FINALS", 15),
   ("QUARTER_FINALS", 10),
   ("ROUND_OF_16", 8),
   ("LAST_16", 8),
   ("PLAYOFFS", 5)]

/-- `calculate_match_importance` (src/app.py lines 939-1056): competition
tier (default 10), big-club bonuses, status bonus, stage bonus, summed and
capped at 100 by `min(score, 100)`. -/
def calculate_match_importance (m : RawMatch) : Nat :=
  let compScore := (tableLookup competition_scores m.competition).getD 10
  let clubScore :=
    (if big_clubs.contains m.homeTeam || big_clubs.contains m.awayTeam then 15 else 0) +
    (if big_clubs.contains m.homeTeam && big_clubs.contains m.awayTeam then 10 else 0)
  let statusScore :=
    if m.status == "LIVE" || m.status == "IN_PLAY" then 20
    else if m.status == "TIMED" then 5
    else 0
  let stageScore := (tableLookup stage_boosts m.stage).getD 0
  min (compScore + clubScore + statusScore + stageScore) 100

/-- Python's substring containment `pat in hay` on strings. -/
def strContainsSub (hay pat : String) : Bool :=
  hay.toList.tails.any (fun t => pat.toList.isPrefixOf t)

/-- `determine_tv_coverage` (src/app.py lines 1058-1072). -/
def determine_tv_coverage (m : RawMatch) : String :=
  let importance := calculate_match_importance m
  if 70 ≤ importance then "Prime Time TV"
  else if 50 ≤ importance then "Major Sports Networks"
  else if 30 ≤ importance then "Sports Channels"
  else if ["Premier League", "UEFA Champions League", "La Liga", "Serie A",
           "Bundesliga"].contains m.competition then "League Broadcasting"
  else "Streaming/Regional"

/-- The `large_stadiums` list of `estimate_attendance`
(src/app.py lines 1080-1081). -/
def large_stadiums : List String :=
  ["Camp Nou", "Santiago Bernabéu", "Old Trafford", "Emirates Stadium",
   "Allianz Arena", "San Siro", "Anfield", "Etihad Stadium"]

/-- `estimate_attendance` (src/app.py lines 1074-1092): the marquee-venue
substring check comes first, then the importance tiers. -/
def estimate_attendance (m : RawMatch) : String :=
  let importance := calculate_match_importance m
  if large_stadiums.any (fun stadium => strContainsSub m.venue stadium) then
    "Sold Out (70,000+)"
  else if 70 ≤ importance then "High (50,000+)"
  else if 50 ≤ importance then "Good (30,000+)"
  else if 30 ≤ importance then "Moderate (15,000+)"
  else "Low (5,000+)"

/-- The `rivalries` dict of `check_rivalry_factor`
(src/app.py lines 1099-1124): ordered pairs of team names mapped to a
rivalry label. -/
def rivalries : List ((String × String) × String) :=
  [(("Manchester United", "Liverpool"), "Historic Rivalry"),
   (("Manchester United", "Manchester City"), "Manchester Derby"),
   (("Arsenal", "Tottenham"), "North London Derby"),
   (("Liverpool", "Everton"), "Merseyside Derby"),
   (("Chelsea", "Arsenal"), "London Derby"),
   (("Real Madrid", "Barcelona"), "El Clásico"),
   (("Real Madrid", "Atletico Madrid"), "Madrid Derby"),
   (("Barcelona", "Espanyol"), "Barcelona Derby"),
   (("Juventus", "AC Milan"), "Classic Rivalry"),
   (("Inter Milan", "AC Milan"), "Derby della Madonnina"),
   (("AS Roma", "Lazio"), "Derby della Capitale"),
   (("Bayern Munich", "Borussia Dortmund"), "Der Klassiker"),
   (("Schalke 04", "Borussia Dortmund"), "Revierderby"),
   (("Ajax", "Feyenoord"), "De Klassieker"),
   (("Benfica", "FC Porto"), "O Clássico")]

/-- `check_rivalry_factor` (src/app.py lines 1094-1130): first table pair
matching the match's home/away names in either orientation, else `none`. -/
def check_rivalry_factor (m : RawMatch) : Option String :=
  (rivalries.find? (fun p =>
      (m.homeTeam == p.1.1 && m.awayTeam == p.1.2) ||
      (m.homeTeam == p.1.2 && m.awayTeam == p.1.1))).map (fun p => p.2)

/-- The match with home and away teams exchanged and all else equal. -/
def swapTeams (m : RawMatch) : RawMatch :=
  { m with homeTeam := m.awayTeam, awayTeam := m.homeTeam }
/-- Python's string comparison: lexicographic on code points. -/
def charListLe : List Char → List Char → Bool
  | [], _ => true
  | _ :: _, [] => false
  | a :: xs, b :: ys =>
    if a.toNat < b.toNat then true
    else if b.toNat < a.toNat then false
    else charListLe xs ys

/-- `s <= t` on Python strings. -/
def strLeB (s t : String) : Bool := charListLe s.toList t.toList

theorem charListLe_total : ∀ xs ys, charListLe xs ys || charListLe ys xs := by
  intro xs
  induction xs with
  | nil => intro ys; simp [charListLe]
  | cons a xs ih =>
    intro ys
    cases ys with
    | nil => simp [charListLe]
    | cons b ys =>
      by_cases hab : a.toNat < b.toNat
      · simp [charListLe, hab]
      · by_cases hba : b.toNat < a.toNat
        · simp [charListLe, hab, hba]
        · simpa [charListLe, hab, hba] using ih ys

theorem charListLe_trans :
    ∀ xs ys zs, charListLe xs ys → charListLe ys zs → charListLe xs zs := by
  intro xs
  induction xs with
  | nil => intro ys zs _ _; simp [charListLe]
  | cons a xs ih =>
    intro ys zs h1 h2
    cases ys with
    | nil => simp [charListLe] at h1
    | cons b ys =>
      cases zs with
      | nil => simp [charListLe] at h2
      | cons c zs =>
        by_cases hab : a.toNat < b.toNat <;> by_cases hba : b.toNat < a.toNat <;>
          by_cases hbc : b.toNat < c.toNat <;> by_cases hcb : c.toNat < b.toNat <;>
          simp [charListLe, hab, hba, hbc, hcb] at h1 h2 ⊢ <;>
          first
          | omega
          | exact ih ys zs h1 h2
          | exact Or.inr ⟨by omega, ih ys zs h1 h2⟩

theorem strLeB_total (s t : String) : strLeB s t || strLeB t s :=
  charListLe_total s.toList t.toList

theorem strLeB_trans {s t u : String} (h1 : strLeB s t) (h2 : strLeB t u) :
    strLeB s u :=
  charListLe_trans s.toList t.toList u.toList h1 h2

/-- Lexicographic comparison of the `(Int, Int, str)` sort keys, as Python
compares tuples. -/
def lexKeyLe (x y : Int × Int × String) : Bool :=
  decide (x.1 < y.1) ||
  (decide (x.1 = y.1) &&
    (decide (x.2.1 < y.2.1) ||
     (decide (x.2.1 = y.2.1) && strLeB x.2.2 y.2.2)))

theorem lexKeyLe_total (x y : Int × Int × String) : lexKeyLe x y || lexKeyLe y x := by
  simp only [lexKeyLe, Bool.or_eq_true, Bool.and_eq_true, decide_eq_true_eq]
  rcases lt_trichotomy x.1 y.1 with h | h | h
  · exact Or.inl (Or.inl h)
  · rcases lt_trichotomy x.2.1 y.2.1 with h2 | h2 | h2
    · exact Or.inl (Or.inr ⟨h, Or.inl h2⟩)
    · rcases Bool.or_eq_true _ _ |>.mp (strLeB_total x.2.2 y.2.2) with h3 | h3
      · exact Or.inl (Or.inr ⟨h, Or.inr ⟨h2, h3⟩⟩)
      · exact Or.inr (Or.inr ⟨h.symm, Or.inr ⟨h2.symm, h3⟩⟩)
    · exact Or.inr (Or.inr ⟨h.symm, Or.inl h2⟩)
  · exact Or.inr (Or.inl h)

theorem lexKeyLe_trans (x y z : Int × Int × String)
    (h1 : lexKeyLe x y) (h2 : lexKeyLe y z) : lexKeyLe x z := by
  simp only [lexKeyLe, Bool.or_eq_true, Bool.and_eq_true, decide_eq_true_eq] at h1 h2 ⊢
  rcases h1 with h1 | ⟨e1, h1⟩ <;> rcases h2 with h2 | ⟨e2, h2⟩
  · exact Or.inl (h1.trans h2)
  · exact Or.inl (lt_of_lt_of_eq h1 e2)
  · exact Or.inl (lt_of_eq_of_lt e1 h2)
  · refine Or.inr ⟨e1.trans e2, ?_⟩
    rcases h1 with h1 | ⟨f1, h1⟩ <;> rcases h2 with h2 | ⟨f2, h2⟩
    · exact Or.inl (h1.trans h2)
    · exact Or.inl (lt_of_lt_of_eq h1 f2)
    · exact Or.inl (lt_of_eq_of_lt f1 h2)
    · exact Or.inr ⟨f1.trans f2, strLeB_trans h1 h2⟩


/-! ## A stable sort

Python's `list.sort` is a stable sort; its output is fully determined by
the comparator (here always derived from a `key=` tuple) and stability,
so any stable sorting algorithm is a faithful model. A structurally
recursive insertion sort is used so that concrete runs reduce inside the
kernel. -/

/-- Insert `x` into `l`, before the first element `y` with `le x y`
(so, stably: after every earlier element that ties with `x`). -/
def stableInsert {α : Type} (le : α → α → Bool) (x : α) : List α → List α
  | [] => [x]
  | y :: ys => if le x y then x :: y :: ys else y :: stableInsert le x ys

/-- Stable insertion sort. -/
def stableSort {α : Type} (le : α → α → Bool) : List α → List α
  | [] => []
  | x :: xs => stableInsert le x (stableSort le xs)

theorem stableInsert_perm {α : Type} (le : α → α → Bool) (x : α) (l : List α) :
    (stableInsert le x l).Perm (x :: l) := by
  induction l with
  | nil => simp [stableInsert]
  | cons y ys ih =>
    simp only [stableInsert]
    by_cases h : le x y = true
    · rw [if_pos h]
    · rw [if_neg h]
      exact (List.Perm.cons y ih).trans (List.Perm.swap x y ys)

theorem stableSort_perm {α : Type} (le : α → α → Bool) (l : List α) :
    (stableSort le l).Perm l := by
  induction l with
  | nil => simp [stableSort]
  | cons x xs ih => exact (stableInsert_perm le x _).trans (List.Perm.cons x ih)

theorem pairwise_stableInsert {α : Type} {le : α → α → Bool}
    (trans : ∀ a b c, le a b = true → le b c = true → le a c = true)
    (total : ∀ a b, le a b || le b a)
    (x : α) (l : List α) (h : l.Pairwise (fun a b => le a b = true)) :
    (stableInsert le x l).Pairwise (fun a b => le a b = true) := by
  induction l with
  | nil => simp [stableInsert]
  | cons y ys ih =>
    rcases List.pairwise_cons.mp h with ⟨hy, hys⟩
    simp only [stableInsert]
    by_cases hxy : le x y = true
    · rw [if_pos hxy]
      refine List.pairwise_cons.mpr ⟨?_, h⟩
      intro z hz
      rcases List.mem_cons.mp hz with rfl | hz
      · exact hxy
      · exact trans x y z hxy (hy z hz)
    · rw [if_neg hxy]
      have hyx : le y x = true := by
        rcases Bool.or_eq_true _ _ |>.mp (total x y) with h1 | h1
        · exact absurd h1 hxy
        · exact h1
      refine List.pairwise_cons.mpr ⟨?_, ih hys⟩
      intro z hz
      rcases List.mem_cons.mp ((stableInsert_perm le x ys).mem_iff.mp hz) with rfl | hz
      · exact hyx
      · exact hy z hz

theorem sorted_stableSort {α : Type} {le : α → α → Bool}
    (trans : ∀ a b c, le a b = true → le b c = true → le a c = true)
    (total : ∀ a b, le a b || le b a) (l : List α) :
    (stableSort le l).Pairwise (fun a b => le a b = true) := by
  induction l with
  | nil => simp [stableSort]
  | cons x xs ih => exact pairwise_stableInsert trans total x _ ih

/-- Sorting an already-sorted list changes nothing. -/
theorem stableSort_of_sorted {α : Type} {le : α → α → Bool} :
    ∀ {l : List α}, l.Pairwise (fun a b => le a b = true) → stableSort le l = l := by
  intro l
  induction l with
  | nil => intro _; rfl
  | cons x xs ih =>
    intro h
    rcases List.pairwise_cons.mp h with ⟨hx, hxs⟩
    simp only [stableSort, ih hxs]
    cases xs with
    | nil => rfl
    | cons y ys =>
      simp only [stableInsert]
      rw [if_pos (hx y (by simp))]

/-! ## The matches-today pipeline (`get_matches_today`, src/app.py 693-933)

Only the match-processing half (lines 852-918) is modelled: the outbound
fetches merely populate `all_matches`, which here is the input list.
`parse : String → Option Int` abstracts `datetime.fromisoformat(s.replace(
'Z','+00:00')).date()` — `none` models a raised exception; `today : Int`
abstracts `datetime.now().date()`. -/

/-- One entry of the processed match lists: the original record plus the
fields of `enhanced_info` the pipeline branches on. -/
structure EnhancedMatch where
  raw : RawMatch
  importance_score : Nat
  match_date : Int
  days_from_today : Int
deriving DecidableEq

/-- The date the pipeline derives for a record (src/app.py 859-862):
`match['date']` when the ESPN key is present (no fallback on parse
failure — the exception skips the record), else `match['utcDate']`;
an absent `utcDate` key raises (KeyError), likewise modelled as `none`. -/
def derivedDate (parse : String → Option Int) (m : RawMatch) : Option Int :=
  match m.date with
  | some s => parse s
  | none =>
    match m.utcDate with
    | some s => parse s
    | none => none

/-- The per-record body of the processing loop (src/app.py 856-890):
skip on a failed date derivation, skip when the date is before `today`,
otherwise build the enhanced record. -/
def processMatch (parse : String → Option Int) (today : Int) (m : RawMatch) :
    Option EnhancedMatch :=
  match derivedDate parse m with
  | none => none
  | some d =>
    if d < today then none
    else some { raw := m,
                importance_score := calculate_match_importance m,
                match_date := d,
                days_from_today := d - today }

/-- All records surviving the processing loop, in input order. -/
def enhancedMatches (parse : String → Option Int) (today : Int)
    (ms : List RawMatch) : List EnhancedMatch :=
  ms.filterMap (processMatch parse today)

/-- `today_matches` (src/app.py 883-884): survivors dated exactly `today`. -/
def today_matches (parse : String → Option Int) (today : Int)
    (ms : List RawMatch) : List EnhancedMatch :=
  (enhancedMatches parse today ms).filter (fun e => e.match_date == today)

/-- `future_matches` (src/app.py 885-886): the `else` branch — survivors
not dated `today`. -/
def future_matches (parse : String → Option Int) (today : Int)
    (ms : List RawMatch) : List EnhancedMatch :=
  (enhancedMatches parse today ms).filter (fun e => !(e.match_date == today))

/-- The sort key of src/app.py 904-908: `(-importance_score,
days_from_today, utcDate or '')`, compared lexicographically as Python
compares tuples. -/
def sortKey (e : EnhancedMatch) : Int × Int × String :=
  (-(e.importance_score : Int), e.days_from_today, e.raw.utcDate.getD "")

/-- The boolean comparator realising Python's stable sort on `sortKey`
(defined below, after the tuple comparison is set up). -/
def keyLe (a b : EnhancedMatch) : Bool :=
  lexKeyLe (sortKey a) (sortKey b)

/-- `final_matches` (src/app.py 893, 904-908): today's matches first, then
future ones, then the in-place stable sort by `sortKey`. -/
def final_matches (parse : String → Option Int) (today : Int)
    (ms : List RawMatch) : List EnhancedMatch :=
  stableSort keyLe (today_matches parse today ms ++ future_matches parse today ms)

/-- `featured_matches` (src/app.py 911-918): the first six of
`final_matches` (or all of them when fewer), re-sorted by the same key. -/
def featured_matches (parse : String → Option Int) (today : Int)
    (ms : List RawMatch) : List EnhancedMatch :=
  stableSort keyLe ((final_matches parse today ms).take 6)

/-- `total_matches` of the response (src/app.py 928). -/
def total_matches (parse : String → Option Int) (today : Int)
    (ms : List RawMatch) : Nat :=
  (final_matches parse today ms).length



/-! ## Theorems about the importance scorer and rivalry lookup -/

/-- A boolean tautology used for the rivalry symmetry argument. -/
theorem bool_pair_swap : ∀ a b c d : Bool,
    ((a && b) || (c && d)) = ((d && c) || (b && a)) := by decide

/-- `List.find?` only depends on the pointwise behaviour of its predicate. -/
theorem find?_ext {α : Type} (p q : α → Bool) (h : ∀ x, p x = q x) :
    ∀ l : List α, l.find? p = l.find? q := by
  intro l
  induction l with
  | nil => rfl
  | cons x xs ih => simp [List.find?, h x, ih]

/-- C3: `calculate_match_importance` always returns an integer in
`[0, 100]`; with an unknown competition, no big club on either side,
`SCHEDULED` status and an unknown stage, it returns exactly 10. -/
theorem importance_score_bounds_and_default (m : RawMatch) :
    (0 ≤ calculate_match_importance m ∧ calculate_match_importance m ≤ 100) ∧
    (tableLookup competition_scores m.competition = none →
     big_clubs.contains m.homeTeam = false →
     big_clubs.contains m.awayTeam = false →
     m.status = "SCHEDULED" →
     tableLookup stage_boosts m.stage = none →
     calculate_match_importance m = 10) := by
  constructor
  · exact ⟨Nat.zero_le _, Nat.min_le_right _ _⟩
  · intro h1 h2 h3 h4 h5
    have h2m : ¬ m.homeTeam ∈ big_clubs := by simpa using h2
    have h3m : ¬ m.awayTeam ∈ big_clubs := by simpa using h3
    simp [calculate_match_importance, h1, h2m, h3m, h4, h5]

/-- The match record with every field defaulted, used as concrete input. -/
def mScheduledUnknown : RawMatch :=
  { date := none, utcDate := none, status := "SCHEDULED", stage := "",
    venue := "", competition := "", homeTeam := "", awayTeam := "" }

/-- Witness for `importance_score_bounds_and_default` at a concrete match. -/
theorem importance_score_bounds_and_default_witness :
    (0 ≤ calculate_match_importance mScheduledUnknown ∧
     calculate_match_importance mScheduledUnknown ≤ 100) ∧
    calculate_match_importance mScheduledUnknown = 10 :=
  ⟨(importance_score_bounds_and_default mScheduledUnknown).1,
   (importance_score_bounds_and_default mScheduledUnknown).2
     (by decide) (by decide) (by decide) rfl (by decide)⟩

/-- C6: the rivalry lookup is symmetric in home/away order — exchanging the
two team names leaves the result (label or `none`) unchanged. -/
theorem rivalry_lookup_symmetric (m : RawMatch) :
    check_rivalry_factor m = check_rivalry_factor (swapTeams m) := by
  unfold check_rivalry_factor
  have h :
      ∀ p : (String × String) × String,
        ((m.homeTeam == p.1.1 && m.awayTeam == p.1.2) ||
         (m.homeTeam == p.1.2 && m.awayTeam == p.1.1)) =
        (((swapTeams m).homeTeam == p.1.1 && (swapTeams m).awayTeam == p.1.2) ||
         ((swapTeams m).homeTeam == p.1.2 && (swapTeams m).awayTeam == p.1.1)) := by
    intro p
    simp only [swapTeams]
    exact bool_pair_swap (m.homeTeam == p.1.1) (m.awayTeam == p.1.2)
      (m.homeTeam == p.1.2) (m.awayTeam == p.1.1)
  rw [find?_ext _ _ h rivalries]

/-- A LIVE Champions-League clásico at Old Trafford: importance 85, yet the
attendance estimate is the marquee-stadium tier, not the `≥ 70` tier. -/
def mMarquee : RawMatch :=
  { date := none, utcDate := none, status := "LIVE", stage := "",
    venue := "Old Trafford", competition := "UEFA Champions League",
    homeTeam := "Real Madrid", awayTeam := "Barcelona" }

/-- C7 fails as stated: this match has importance `85 ≥ 70`, but its
attendance estimate is `"Sold Out (70,000+)"`, not the claimed `"High"`
tier — the marquee-venue substring check takes precedence over the score
tiers. -/
theorem coverage_tiers_counterexample :
    calculate_match_importance mMarquee = 85 ∧
    estimate_attendance mMarquee = "Sold Out (70,000+)" ∧
    estimate_attendance mMarquee ≠ "High (50,000+)" := by decide

/-- C7 amended: `tvCoverage` follows the score tiers exactly (venue plays
no part in it); `attendanceEstimate` follows the score tiers only when the
venue matches no marquee stadium — a marquee-venue match is always
`"Sold Out (70,000+)"` regardless of score. -/
theorem coverage_tiers_amended (m : RawMatch) :
    (70 ≤ calculate_match_importance m →
      determine_tv_coverage m = "Prime Time TV") ∧
    (50 ≤ calculate_match_importance m → calculate_match_importance m < 70 →
      determine_tv_coverage m = "Major Sports Networks") ∧
    (30 ≤ calculate_match_importance m → calculate_match_importance m < 50 →
      determine_tv_coverage m = "Sports Channels") ∧
    (calculate_match_importance m < 30 →
      ["Premier League", "UEFA Champions League", "La Liga", "Serie A",
       "Bundesliga"].contains m.competition = true →
      determine_tv_coverage m = "League Broadcasting") ∧
    (calculate_match_importance m < 30 →
      ["Premier League", "UEFA Champions League", "La Liga", "Serie A",
       "Bundesliga"].contains m.competition = false →
      determine_tv_coverage m = "Streaming/Regional") ∧
    (large_stadiums.any (fun stadium => strContainsSub m.venue stadium) = true →
      estimate_attendance m = "Sold Out (70,000+)") ∧
    (large_stadiums.any (fun stadium => strContainsSub m.venue stadium) = false →
      (70 ≤ calculate_match_importance m →
        estimate_attendance m = "High (50,000+)") ∧
      (50 ≤ calculate_match_importance m → calculate_match_importance m < 70 →
        estimate_attendance m = "Good (30,000+)") ∧
      (30 ≤ calculate_match_importance m → calculate_match_importance m < 50 →
        estimate_attendance m = "Moderate (15,000+)") ∧
      (calculate_match_importance m < 30 →
        estimate_attendance m = "Low (5,000+)")) := by
  refine ⟨?_, ?_, ?_, ?_, ?_, ?_, ?_⟩
  · intro h; simp [determine_tv_coverage, h]
  · intro h1 h2
    have h3 : ¬ 70 ≤ calculate_match_importance m := by omega
    simp [determine_tv_coverage, h1, h3]
  · intro h1 h2
    have h3 : ¬ 70 ≤ calculate_match_importance m := by omega
    have h4 : ¬ 50 ≤ calculate_match_importance m := by omega
    simp [determine_tv_coverage, h1, h3, h4]
  · intro h1 h2
    have h3 : ¬ 70 ≤ calculate_match_importance m := by omega
    have h4 : ¬ 50 ≤ calculate_match_importance m := by omega
    have h5 : ¬ 30 ≤ calculate_match_importance m := by omega
    simp only [determine_tv_coverage]
    rw [if_neg h3, if_neg h4, if_neg h5, if_pos h2]
  · intro h1 h2
    have h3 : ¬ 70 ≤ calculate_match_importance m := by omega
    have h4 : ¬ 50 ≤ calculate_match_importance m := by omega
    have h5 : ¬ 30 ≤ calculate_match_importance m := by omega
    simp only [determine_tv_coverage]
    rw [if_neg h3, if_neg h4, if_neg h5, if_neg (by simpa using h2)]
  · intro h; simp [estimate_attendance, h]
  · intro h
    refine ⟨?_, ?_, ?_, ?_⟩
    · intro h1; simp [estimate_attendance, h, h1]
    · intro h1 h2
      have h3 : ¬ 70 ≤ calculate_match_importance m := by omega
      simp [estimate_attendance, h, h1, h3]
    · intro h1 h2
      have h3 : ¬ 70 ≤ calculate_match_importance m := by omega
      have h4 : ¬ 50 ≤ calculate_match_importance m := by omega
      simp [estimate_attendance, h, h1, h3, h4]
    · intro h1
      have h3 : ¬ 70 ≤ calculate_match_importance m := by omega
      have h4 : ¬ 50 ≤ calculate_match_importance m := by omega
      have h5 : ¬ 30 ≤ calculate_match_importance m := by omega
      simp [estimate_attendance, h, h3, h4, h5]

/-- Witness for `coverage_tiers_amended` at two concrete matches: a
defaulted match (score 10) and the marquee-venue match. -/
theorem coverage_tiers_amended_witness :
    determine_tv_coverage mScheduledUnknown = "Streaming/Regional" ∧
    estimate_attendance mScheduledUnknown = "Low (5,000+)" ∧
    determine_tv_coverage mMarquee = "Prime Time TV" ∧
    estimate_attendance mMarquee = "Sold Out (70,000+)" :=
  ⟨(coverage_tiers_amended mScheduledUnknown).2.2.2.2.1 (by decide) (by decide),
   ((coverage_tiers_amended mScheduledUnknown).2.2.2.2.2.2 (by decide)).2.2.2
     (by decide),
   (coverage_tiers_amended mMarquee).1 (by decide),
   (coverage_tiers_amended mMarquee).2.2.2.2.2.1 (by decide)⟩

/-! ## Theorems about the matches-today classifier -/

theorem keyLe_trans (a b c : EnhancedMatch)
    (h1 : keyLe a b = true) (h2 : keyLe b c = true) : keyLe a c = true :=
  lexKeyLe_trans _ _ _ h1 h2

theorem keyLe_total (a b : EnhancedMatch) : keyLe a b || keyLe b a :=
  lexKeyLe_total _ _

/-- A record the processing loop keeps is dated `today` or later. -/
theorem processMatch_date_ge (parse : String → Option Int) (today : Int)
    (m : RawMatch) (e : EnhancedMatch)
    (h : processMatch parse today m = some e) : today ≤ e.match_date := by
  cases hd : derivedDate parse m with
  | none => simp [processMatch, hd] at h
  | some d =>
    simp only [processMatch, hd] at h
    by_cases hlt : d < today
    · rw [if_pos hlt] at h; exact absurd h (by simp)
    · rw [if_neg hlt, Option.some.injEq] at h
      rw [← h]
      exact Int.not_lt.mp hlt

/-- C4: the classifier drops every match whose derivable date is strictly
before `today`; every element of `today_matches` is dated exactly `today`;
every element of `future_matches` is dated strictly after `today`. -/
theorem classifier_partition_dates (parse : String → Option Int) (today : Int)
    (ms : List RawMatch) :
    (∀ m : RawMatch, ∀ d : Int, derivedDate parse m = some d → d < today →
        processMatch parse today m = none) ∧
    (∀ e ∈ today_matches parse today ms, e.match_date = today) ∧
    (∀ e ∈ future_matches parse today ms, today < e.match_date) := by
  refine ⟨?_, ?_, ?_⟩
  · intro m d hd hlt
    simp [processMatch, hd, hlt]
  · intro e he
    simpa using (List.mem_filter.mp he).2
  · intro e he
    rcases List.mem_filter.mp he with ⟨hmem, hne⟩
    rcases List.mem_filterMap.mp hmem with ⟨m, _, hpm⟩
    have hge := processMatch_date_ge parse today m e hpm
    have : e.match_date ≠ today := by simpa using hne
    omega

/-- A fixed date parser used for concrete inputs: three known date strings. -/
def parse0 : String → Option Int := fun s =>
  if s == "D0" then some 0
  else if s == "D1" then some 1
  else if s == "Dm1" then some (-1)
  else none

/-- A low-importance match dated `today` (day 0). -/
def mToday : RawMatch :=
  { date := none, utcDate := some "D0", status := "SCHEDULED", stage := "",
    venue := "", competition := "", homeTeam := "", awayTeam := "" }

/-- A higher-importance match dated one day ahead (day 1). -/
def mFuture : RawMatch :=
  { date := none, utcDate := some "D1", status := "SCHEDULED", stage := "",
    venue := "", competition := "Premier League", homeTeam := "", awayTeam := "" }

/-- A match dated one day in the past (day -1). -/
def mPast : RawMatch :=
  { date := none, utcDate := some "Dm1", status := "SCHEDULED", stage := "",
    venue := "", competition := "", homeTeam := "", awayTeam := "" }

/-- The enhanced record the pipeline builds for `mToday`. -/
def eToday : EnhancedMatch :=
  { raw := mToday, importance_score := 10, match_date := 0, days_from_today := 0 }

/-- The enhanced record the pipeline builds for `mFuture`. -/
def eFuture : EnhancedMatch :=
  { raw := mFuture, importance_score := 35, match_date := 1, days_from_today := 1 }

/-- Witness for `classifier_partition_dates` on concrete matches. -/
theorem classifier_partition_dates_witness :
    processMatch parse0 0 mPast = none ∧
    eToday.match_date = 0 ∧
    (0 : Int) < eFuture.match_date :=
  ⟨(classifier_partition_dates parse0 0 [mPast, mToday, mFuture]).1 mPast (-1)
      (by decide) (by decide),
   (classifier_partition_dates parse0 0 [mPast, mToday, mFuture]).2.1 eToday
      (by decide),
   (classifier_partition_dates parse0 0 [mPast, mToday, mFuture]).2.2 eFuture
      (by decide)⟩

/-- C1 fails as stated: with one low-importance match today and one
high-importance match tomorrow, the returned list (sorted by descending
importance) puts the future match first, so it is not
`todays ++ future`. -/
theorem all_eq_todays_append_future_counterexample :
    final_matches parse0 0 [mToday, mFuture] ≠
      today_matches parse0 0 [mToday, mFuture] ++
        future_matches parse0 0 [mToday, mFuture] := by decide

/-- C1 amended: the list concatenated by the pipeline is exactly
`todays ++ future`, and the returned list is a permutation of it — the
final sort by (descending importance, days, kickoff) may interleave
today's and future matches, so order preservation cannot be promised. -/
theorem all_perm_todays_append_future (parse : String → Option Int)
    (today : Int) (ms : List RawMatch) :
    (final_matches parse today ms).Perm
      (today_matches parse today ms ++ future_matches parse today ms) :=
  stableSort_perm _ _

/-- C5: `featured_matches` has at most six entries, re-sorting after the
slice is the identity (it equals the first six of the sorted full list),
and both lists are sorted by the comparator (descending importance, then
days from today, then kickoff string). -/
theorem featured_sorted_top6 (parse : String → Option Int) (today : Int)
    (ms : List RawMatch) :
    (featured_matches parse today ms).length ≤ 6 ∧
    featured_matches parse today ms = (final_matches parse today ms).take 6 ∧
    List.Pairwise (fun a b => keyLe a b = true) (final_matches parse today ms) ∧
    List.Pairwise (fun a b => keyLe a b = true) (featured_matches parse today ms) := by
  have hfin : List.Pairwise (fun a b => keyLe a b = true)
      (final_matches parse today ms) := by
    unfold final_matches
    exact sorted_stableSort keyLe_trans keyLe_total _
  have htake : List.Pairwise (fun a b => keyLe a b = true)
      ((final_matches parse today ms).take 6) :=
    List.Pairwise.sublist (List.take_sublist 6 _) hfin
  have heq : featured_matches parse today ms =
      (final_matches parse today ms).take 6 := by
    unfold featured_matches
    exact stableSort_of_sorted htake
  refine ⟨?_, heq, hfin, heq ▸ htake⟩
  rw [heq]
  calc ((final_matches parse today ms).take 6).length
      = min 6 (final_matches parse today ms).length := List.length_take 6 _
    _ ≤ 6 := Nat.min_le_left _ _

/-- An ESPN-keyed record whose date string fails to parse (its canonical
`utcDate` would parse, but the code does not fall back to it). -/
def mBad : RawMatch :=
  { date := some "XX", utcDate := some "D1", status := "SCHEDULED", stage := "",
    venue := "", competition := "", homeTeam := "", awayTeam := "" }

/-- C10: a record whose date cannot be derived (key absent or ISO parse
failure) is silently omitted from every output of the pipeline — removing
it from the input changes nothing. -/
theorem unparsable_date_omitted (parse : String → Option Int) (today : Int)
    (pre post : List RawMatch) (m : RawMatch)
    (h : derivedDate parse m = none) :
    enhancedMatches parse today (pre ++ m :: post) =
      enhancedMatches parse today (pre ++ post) ∧
    today_matches parse today (pre ++ m :: post) =
      today_matches parse today (pre ++ post) ∧
    future_matches parse today (pre ++ m :: post) =
      future_matches parse today (pre ++ post) ∧
    final_matches parse today (pre ++ m :: post) =
      final_matches parse today (pre ++ post) ∧
    featured_matches parse today (pre ++ m :: post) =
      featured_matches parse today (pre ++ post) ∧
    total_matches parse today (pre ++ m :: post) =
      total_matches parse today (pre ++ post) := by
  have hp : processMatch parse today m = none := by simp [processMatch, h]
  have he : enhancedMatches parse today (pre ++ m :: post) =
      enhancedMatches parse today (pre ++ post) := by
    simp [enhancedMatches, List.filterMap_append, List.filterMap_cons, hp]
  have ht : today_matches parse today (pre ++ m :: post) =
      today_matches parse today (pre ++ post) := by
    unfold today_matches; rw [he]
  have hf : future_matches parse today (pre ++ m :: post) =
      future_matches parse today (pre ++ post) := by
    unfold future_matches; rw [he]
  have hfin : final_matches parse today (pre ++ m :: post) =
      final_matches parse today (pre ++ post) := by
    unfold final_matches; rw [ht, hf]
  have hfeat : featured_matches parse today (pre ++ m :: post) =
      featured_matches parse today (pre ++ post) := by
    unfold featured_matches; rw [hfin]
  have htot : total_matches parse today (pre ++ m :: post) =
      total_matches parse today (pre ++ post) := by
    unfold total_matches; rw [hfin]
  exact ⟨he, ht, hf, hfin, hfeat, htot⟩

/-- Witness for `unparsable_date_omitted`: dropping the unparsable record
`mBad` from a concrete three-record input leaves every output unchanged. -/
theorem unparsable_date_omitted_witness :
    final_matches parse0 0 ([mToday] ++ mBad :: [mFuture]) =
      final_matches parse0 0 ([mToday] ++ [mFuture]) ∧
    featured_matches parse0 0 ([mToday] ++ mBad :: [mFuture]) =
      featured_matches parse0 0 ([mToday] ++ [mFuture]) ∧
    total_matches parse0 0 ([mToday] ++ mBad :: [mFuture]) =
      total_matches parse0 0 ([mToday] ++ [mFuture]) :=
  ⟨(unparsable_date_omitted parse0 0 [mToday] [mFuture] mBad (by decide)).2.2.2.1,
   (unparsable_date_omitted parse0 0 [mToday] [mFuture] mBad (by decide)).2.2.2.2.1,
   (unparsable_date_omitted parse0 0 [mToday] [mFuture] mBad (by decide)).2.2.2.2.2⟩

/-! ## The competition lifecycle analyzer
(`analyze_team_competitions`, src/app.py 419-526)

Input records carry the fields the function reads: the competition id and
name (`competition.get('id')`, `.get('name', 'Unknown')` — id may be
absent), the parsed `utcDate` (as a day/timestamp number) and the status.
The reduced per-bucket entries keep date and status: the claims observe
no other field, and the carried-through stage/matchday/opponent and
type/code/emblem strings play no part in any branch of the function. -/

/-- An input match of the team-competitions analysis. -/
structure TMatch where
  compId : Option Int
  compName : String
  date : Int
  status : String
deriving DecidableEq

/-- A match as stored inside a competition bucket. -/
structure BMatch where
  date : Int
  status : String
deriving DecidableEq

/-- One step of building the `competitions` dict (src/app.py 431-452):
a new key is appended, an existing key has the match appended to it,
first-seen name retained. -/
def groupsAdd (gs : List (Option Int × String × List TMatch)) (m : TMatch) :
    List (Option Int × String × List TMatch) :=
  if gs.any (fun g => g.1 == m.compId) then
    gs.map (fun g => if g.1 == m.compId then (g.1, g.2.1, g.2.2 ++ [m]) else g)
  else gs ++ [(m.compId, m.compName, [m])]

/-- The `competitions` dict in insertion order. -/
def competitionGroups (ms : List TMatch) : List (Option Int × String × List TMatch) :=
  ms.foldl groupsAdd []

/-- Comparator for the per-bucket date sort (src/app.py 465). -/
def bDateLe (a b : BMatch) : Bool := decide (a.date ≤ b.date)

/-- A bucket's matches, reduced and sorted ascending by date. -/
def sortedBucketMatches (g : Option Int × String × List TMatch) : List BMatch :=
  stableSort bDateLe (g.2.2.map (fun m => BMatch.mk m.date m.status))

/-- `upcoming_matches` of a bucket (src/app.py 472). -/
def bucketUpcoming (now : Int) (ms : List BMatch) : List BMatch :=
  ms.filter (fun m =>
    decide (now < m.date) && (m.status == "SCHEDULED" || m.status == "TIMED"))

/-- `recent_matches` of a bucket (src/app.py 473). -/
def bucketRecent (now : Int) (ms : List BMatch) : List BMatch :=
  ms.filter (fun m =>
    decide (m.date ≤ now) &&
      (m.status == "FINISHED" || m.status == "LIVE" || m.status == "IN_PLAY"))

/-- A classified competition bucket with its status-specific fields. -/
structure Bucket where
  compId : Option Int
  name : String
  matchesList : List BMatch   -- the source's `matches` key (a Lean keyword)
  status : String
  matches_played : Option Nat
  matches_remaining : Option Nat
  starts : Option Int
  ended : Option Int
deriving DecidableEq

/-- Classification of one bucket (src/app.py 464-496): `active` when both
upcoming and recent matches exist, `upcoming`/`completed` when only one
side does, and the untouched `'unknown'` status when neither does. -/
def mkBucket (now : Int) (g : Option Int × String × List TMatch) : Bucket :=
  let sorted := sortedBucketMatches g
  let up := bucketUpcoming now sorted
  let recents := bucketRecent now sorted
  if up ≠ [] ∧ recents ≠ [] then
    { compId := g.1, name := g.2.1, matchesList := sorted, status := "active",
      matches_played := some recents.length, matches_remaining := some up.length,
      starts := none, ended := none }
  else if up ≠ [] then
    { compId := g.1, name := g.2.1, matchesList := sorted, status := "upcoming",
      matches_played := none, matches_remaining := some up.length,
      starts := up.head?.map (fun b => b.date), ended := none }
  else if recents ≠ [] then
    { compId := g.1, name := g.2.1, matchesList := sorted, status := "completed",
      matches_played := some recents.length, matches_remaining := none,
      starts := none, ended := recents.getLast?.map (fun b => b.date) }
  else
    { compId := g.1, name := g.2.1, matchesList := sorted, status := "unknown",
      matches_played := none, matches_remaining := none,
      starts := none, ended := none }

/-- The `priority_order` dict of `sort_competitions` (src/app.py 500-515). -/
def priority_order : List (String × Nat) :=
  [("UEFA Champions League", 1),
   ("UEFA Europa League", 2),
   ("UEFA Conference League", 3),
   ("Premier League", 4),
   ("La Liga", 4), ("Primera Division", 4),
   ("Serie A", 4),
   ("Bundesliga", 4),
   ("Ligue 1", 4),
   ("FA Cup", 5),
   ("Copa del Rey", 5),
   ("DFB-Pokal", 5),
   ("Coppa Italia", 5),
   ("EFL Cup", 6),
   ("Championship", 7)]

/-- The sort key of `sort_competitions` (src/app.py 516-519): priority
(default 99), then the bucket's `starts` date for upcoming buckets and
`current_date` otherwise. -/
def compSortKey (now : Int) (b : Bucket) : Nat × Int :=
  ((tableLookup priority_order b.name).getD 99,
   if b.status == "upcoming" then b.starts.getD now else now)

/-- Lexicographic comparator on `compSortKey`. -/
def compLe (now : Int) (a b : Bucket) : Bool :=
  decide ((compSortKey now a).1 < (compSortKey now b).1) ||
  (decide ((compSortKey now a).1 = (compSortKey now b).1) &&
    decide ((compSortKey now a).2 ≤ (compSortKey now b).2))

/-- `sort_competitions` (src/app.py 499-519). -/
def sort_competitions (now : Int) (bs : List Bucket) : List Bucket :=
  stableSort (compLe now) bs

/-- The classification loop over all buckets; a bucket with no matches
would be skipped (`continue`), though grouping never produces one. -/
def classifiedBuckets (now : Int) (ms : List TMatch) : List Bucket :=
  (competitionGroups ms).filterMap
    (fun g => if g.2.2 = [] then none else some (mkBucket now g))

/-- The value returned by `analyze_team_competitions` (src/app.py 521-526). -/
structure CompetitionAnalysis where
  active : List Bucket
  upcoming : List Bucket
  completed : List Bucket
  total_competitions : Nat
deriving DecidableEq

/-- `analyze_team_competitions` (src/app.py 419-526), with
`datetime.now()` passed in as `now`. -/
def analyze_team_competitions (now : Int) (ms : List TMatch) :
    CompetitionAnalysis :=
  let buckets := classifiedBuckets now ms
  { active := sort_competitions now (buckets.filter (fun b => b.status == "active")),
    upcoming := sort_competitions now (buckets.filter (fun b => b.status == "upcoming")),
    completed := sort_competitions now (buckets.filter (fun b => b.status == "completed")),
    total_competitions := (competitionGroups ms).length }

/-! ## Theorems about the competition lifecycle analyzer -/

/-- A single POSTPONED match: its bucket is non-empty yet classified into
none of the three output lists. -/
def tPostponed : TMatch :=
  { compId := some 1, compName := "Cup X", date := 5, status := "POSTPONED" }

/-- C2 fails as stated: the bucket of `tPostponed` holds one match, yet it
appears in none of `active`/`upcoming`/`completed` (it is only counted in
`total_competitions`) — a bucket is dropped whenever it has no upcoming
and no recent matches, not only when it has zero matches. -/
theorem competition_bucket_counterexample :
    competitionGroups [tPostponed] = [(some 1, "Cup X", [tPostponed])] ∧
    (analyze_team_competitions 10 [tPostponed]).active = [] ∧
    (analyze_team_competitions 10 [tPostponed]).upcoming = [] ∧
    (analyze_team_competitions 10 [tPostponed]).completed = [] ∧
    (analyze_team_competitions 10 [tPostponed]).total_competitions = 1 := by
  decide

theorem mem_classifiedBuckets (now : Int) (ms : List TMatch)
    (g : Option Int × String × List TMatch)
    (hg : g ∈ competitionGroups ms) (hne : g.2.2 ≠ []) :
    mkBucket now g ∈ classifiedBuckets now ms :=
  List.mem_filterMap.mpr ⟨g, hg, by rw [if_neg hne]⟩

theorem mkBucket_status_active (now : Int) (g : Option Int × String × List TMatch)
    (hu : bucketUpcoming now (sortedBucketMatches g) ≠ [])
    (hr : bucketRecent now (sortedBucketMatches g) ≠ []) :
    (mkBucket now g).status = "active" := by
  simp only [mkBucket]
  rw [if_pos ⟨hu, hr⟩]

theorem mkBucket_status_upcoming (now : Int) (g : Option Int × String × List TMatch)
    (hu : bucketUpcoming now (sortedBucketMatches g) ≠ [])
    (hr : bucketRecent now (sortedBucketMatches g) = []) :
    (mkBucket now g).status = "upcoming" := by
  simp only [mkBucket]
  rw [if_neg (by simp [hr]), if_pos hu]

theorem mkBucket_status_completed (now : Int) (g : Option Int × String × List TMatch)
    (hu : bucketUpcoming now (sortedBucketMatches g) = [])
    (hr : bucketRecent now (sortedBucketMatches g) ≠ []) :
    (mkBucket now g).status = "completed" := by
  simp only [mkBucket]
  rw [if_neg (by simp [hu]), if_neg (by simp [hu]), if_pos hr]

theorem mkBucket_status_unknown (now : Int) (g : Option Int × String × List TMatch)
    (hu : bucketUpcoming now (sortedBucketMatches g) = [])
    (hr : bucketRecent now (sortedBucketMatches g) = []) :
    (mkBucket now g).status = "unknown" := by
  simp only [mkBucket]
  rw [if_neg (by simp [hu]), if_neg (by simp [hu]), if_neg (by simp [hr])]

theorem mem_sorted_filter (now : Int) (bs : List Bucket) (s : String) (b : Bucket) :
    b ∈ sort_competitions now (bs.filter (fun x => x.status == s)) ↔
      b ∈ bs ∧ b.status = s := by
  unfold sort_competitions
  rw [(stableSort_perm _ _).mem_iff, List.mem_filter]
  simp

/-- C2 amended: a non-empty bucket lands in exactly the one output list
matching its classification, and in none of the three exactly when it has
neither upcoming nor recent matches (e.g. only POSTPONED/CANCELLED ones);
`total_competitions` counts every bucket either way. -/
theorem competition_bucket_partition_amended (now : Int) (ms : List TMatch)
    (g : Option Int × String × List TMatch)
    (hg : g ∈ competitionGroups ms) (hne : g.2.2 ≠ []) :
    (bucketUpcoming now (sortedBucketMatches g) ≠ [] →
     bucketRecent now (sortedBucketMatches g) ≠ [] →
       mkBucket now g ∈ (analyze_team_competitions now ms).active ∧
       mkBucket now g ∉ (analyze_team_competitions now ms).upcoming ∧
       mkBucket now g ∉ (analyze_team_competitions now ms).completed) ∧
    (bucketUpcoming now (sortedBucketMatches g) ≠ [] →
     bucketRecent now (sortedBucketMatches g) = [] →
       mkBucket now g ∈ (analyze_team_competitions now ms).upcoming ∧
       mkBucket now g ∉ (analyze_team_competitions now ms).active ∧
       mkBucket now g ∉ (analyze_team_competitions now ms).completed) ∧
    (bucketUpcoming now (sortedBucketMatches g) = [] →
     bucketRecent now (sortedBucketMatches g) ≠ [] →
       mkBucket now g ∈ (analyze_team_competitions now ms).completed ∧
       mkBucket now g ∉ (analyze_team_competitions now ms).active ∧
       mkBucket now g ∉ (analyze_team_competitions now ms).upcoming) ∧
    (bucketUpcoming now (sortedBucketMatches g) = [] →
     bucketRecent now (sortedBucketMatches g) = [] →
       mkBucket now g ∉ (analyze_team_competitions now ms).active ∧
       mkBucket now g ∉ (analyze_team_competitions now ms).upcoming ∧
       mkBucket now g ∉ (analyze_team_competitions now ms).completed) ∧
    (analyze_team_competitions now ms).total_competitions =
      (competitionGroups ms).length := by
  have hb := mem_classifiedBuckets now ms g hg hne
  have hact : (analyze_team_competitions now ms).active =
      sort_competitions now
        ((classifiedBuckets now ms).filter (fun b => b.status == "active")) := rfl
  have hupc : (analyze_team_competitions now ms).upcoming =
      sort_competitions now
        ((classifiedBuckets now ms).filter (fun b => b.status == "upcoming")) := rfl
  have hcom : (analyze_team_competitions now ms).completed =
      sort_competitions now
        ((classifiedBuckets now ms).filter (fun b => b.status == "completed")) := rfl
  refine ⟨?_, ?_, ?_, ?_, rfl⟩
  · intro hu hr
    have hs := mkBucket_status_active now g hu hr
    refine ⟨?_, ?_, ?_⟩
    · rw [hact]; exact (mem_sorted_filter now _ "active" _).mpr ⟨hb, hs⟩
    · rw [hupc]; intro hmem
      have := ((mem_sorted_filter now _ "upcoming" _).mp hmem).2
      rw [hs] at this; exact absurd this (by decide)
    · rw [hcom]; intro hmem
      have := ((mem_sorted_filter now _ "completed" _).mp hmem).2
      rw [hs] at this; exact absurd this (by decide)
  · intro hu hr
    have hs := mkBucket_status_upcoming now g hu hr
    refine ⟨?_, ?_, ?_⟩
    · rw [hupc]; exact (mem_sorted_filter now _ "upcoming" _).mpr ⟨hb, hs⟩
    · rw [hact]; intro hmem
      have := ((mem_sorted_filter now _ "active" _).mp hmem).2
      rw [hs] at this; exact absurd this (by decide)
    · rw [hcom]; intro hmem
      have := ((mem_sorted_filter now _ "completed" _).mp hmem).2
      rw [hs] at this; exact absurd this (by decide)
  · intro hu hr
    have hs := mkBucket_status_completed now g hu hr
    refine ⟨?_, ?_, ?_⟩
    · rw [hcom]; exact (mem_sorted_filter now _ "completed" _).mpr ⟨hb, hs⟩
    · rw [hact]; intro hmem
      have := ((mem_sorted_filter now _ "active" _).mp hmem).2
      rw [hs] at this; exact absurd this (by decide)
    · rw [hupc]; intro hmem
      have := ((mem_sorted_filter now _ "upcoming" _).mp hmem).2
      rw [hs] at this; exact absurd this (by decide)
  · intro hu hr
    have hs := mkBucket_status_unknown now g hu hr
    refine ⟨?_, ?_, ?_⟩
    · rw [hact]; intro hmem
      have := ((mem_sorted_filter now _ "active" _).mp hmem).2
      rw [hs] at this; exact absurd this (by decide)
    · rw [hupc]; intro hmem
      have := ((mem_sorted_filter now _ "upcoming" _).mp hmem).2
      rw [hs] at this; exact absurd this (by decide)
    · rw [hcom]; intro hmem
      have := ((mem_sorted_filter now _ "completed" _).mp hmem).2
      rw [hs] at this; exact absurd this (by decide)

/-- Concrete team history: an active continental campaign, an
upcoming-only league, a completed-only cup, a postponed-only competition. -/
def tUp : TMatch :=
  { compId := some 1, compName := "UEFA Champions League", date := 20, status := "SCHEDULED" }

def tRec : TMatch :=
  { compId := some 1, compName := "UEFA Champions League", date := 5, status := "FINISHED" }

def tOnlyUp : TMatch :=
  { compId := some 2, compName := "Premier League", date := 15, status := "TIMED" }

def tOnlyRec : TMatch :=
  { compId := some 3, compName := "FA Cup", date := 2, status := "FINISHED" }

def tPostponedOther : TMatch :=
  { compId := some 4, compName := "Cup X", date := 5, status := "POSTPONED" }

def msC2 : List TMatch := [tRec, tUp, tOnlyUp, tOnlyRec, tPostponedOther]

/-- Witness for `competition_bucket_partition_amended` on `msC2`. -/
theorem competition_bucket_partition_amended_witness :
    mkBucket 10 (some 1, "UEFA Champions League", [tRec, tUp]) ∈
      (analyze_team_competitions 10 msC2).active ∧
    mkBucket 10 (some 4, "Cup X", [tPostponedOther]) ∉
      (analyze_team_competitions 10 msC2).active ∧
    (analyze_team_competitions 10 msC2).total_competitions = 4 :=
  ⟨((competition_bucket_partition_amended 10 msC2
        (some 1, "UEFA Champions League", [tRec, tUp]) (by decide) (by decide)).1
      (by decide) (by decide)).1,
   (((competition_bucket_partition_amended 10 msC2
        (some 4, "Cup X", [tPostponedOther]) (by decide) (by decide)).2.2.2.1
      (by decide) (by decide)).1 : _),
   ((competition_bucket_partition_amended 10 msC2
        (some 1, "UEFA Champions League", [tRec, tUp]) (by decide) (by decide)).2.2.2.2.trans
      (by decide))⟩

/-! ## Squad age analytics (`get_top_performers`, src/app.py 188-329)

Only the age-bucket half is modelled (lines 200-261; the claims are about
`young_talents` and `experienced_players`). Dates of birth are modelled as
parsed year/month/day triples; an absent or unparsable `dateOfBirth`
(which the code's bare `except` maps to a `None` age) is `none`. -/

/-- A calendar date as year/month/day. -/
structure YMD where
  year : Int
  month : Int
  day : Int
deriving DecidableEq

/-- Python's tuple comparison `(m, d) < (m', d')`. -/
def monthDayLtB (a b : Int × Int) : Bool :=
  decide (a.1 < b.1) || (decide (a.1 = b.1) && decide (a.2 < b.2))

/-- The age computation of src/app.py line 217:
`today.year - birth.year - ((today.month, today.day) < (birth.month, birth.day))`. -/
def ageOn (today birth : YMD) : Int :=
  today.year - birth.year -
    (if monthDayLtB (today.month, today.day) (birth.month, birth.day) then 1 else 0)

/-- A raw squad entry, with the `.get(..., 'Unknown')` defaults applied. -/
structure RawPlayer where
  name : String
  position : String
  nationality : String
  dateOfBirth : Option YMD
deriving DecidableEq

/-- A `player_data` entry of `squad_with_ages` (src/app.py 202-222). -/
structure AgedPlayer where
  name : String
  position : String
  nationality : String
  age : Option Int
deriving DecidableEq

def agedOf (today : YMD) (p : RawPlayer) : AgedPlayer :=
  { name := p.name, position := p.position, nationality := p.nationality,
    age := p.dateOfBirth.map (ageOn today) }

/-- `squad_with_ages` (src/app.py 201-222). -/
def squad_with_ages (today : YMD) (squad : List RawPlayer) : List AgedPlayer :=
  squad.map (agedOf today)

/-- `players_with_ages` (src/app.py 225). -/
def players_with_ages (today : YMD) (squad : List RawPlayer) : List AgedPlayer :=
  (squad_with_ages today squad).filter (fun p => p.age.isSome)

/-- Ascending-age comparator (`key=lambda x: x['age']`). -/
def ageAscLe (a b : AgedPlayer) : Bool := decide (a.age.getD 0 ≤ b.age.getD 0)

/-- Descending-age comparator (`reverse=True`, stable). -/
def ageDescLe (a b : AgedPlayer) : Bool := decide (b.age.getD 0 ≤ a.age.getD 0)

/-- The under-23 filter of src/app.py 256. -/
def youngPool (today : YMD) (squad : List RawPlayer) : List AgedPlayer :=
  (players_with_ages today squad).filter (fun p =>
    match p.age with
    | some a => decide (a < 23)
    | none => false)

/-- The 30-plus filter of src/app.py 260. -/
def experiencedPool (today : YMD) (squad : List RawPlayer) : List AgedPlayer :=
  (players_with_ages today squad).filter (fun p =>
    match p.age with
    | some a => decide (30 ≤ a)
    | none => false)

/-- `young_talents` (src/app.py 256-257, 324): under-23 players, youngest
first, capped at 8. -/
def young_talents (today : YMD) (squad : List RawPlayer) : List AgedPlayer :=
  (stableSort ageAscLe (youngPool today squad)).take 8

/-- `experienced_players` (src/app.py 260-261, 325): 30-plus players,
oldest first, capped at 8. -/
def experienced_players (today : YMD) (squad : List RawPlayer) : List AgedPlayer :=
  (stableSort ageDescLe (experiencedPool today squad)).take 8

/-! ## Theorems about squad age bucketing -/

theorem youngPool_age (today : YMD) (squad : List RawPlayer) (p : AgedPlayer)
    (hp : p ∈ youngPool today squad) : ∃ a, p.age = some a ∧ a < 23 := by
  have hb := (List.mem_filter.mp hp).2
  cases ha : p.age with
  | none => rw [ha] at hb; simp at hb
  | some a =>
    rw [ha] at hb
    exact ⟨a, rfl, by simpa using hb⟩

theorem experiencedPool_age (today : YMD) (squad : List RawPlayer) (p : AgedPlayer)
    (hp : p ∈ experiencedPool today squad) : ∃ a, p.age = some a ∧ 30 ≤ a := by
  have hb := (List.mem_filter.mp hp).2
  cases ha : p.age with
  | none => rw [ha] at hb; simp at hb
  | some a =>
    rw [ha] at hb
    exact ⟨a, rfl, by simpa using hb⟩

theorem ageAscLe_trans (a b c : AgedPlayer)
    (h1 : ageAscLe a b = true) (h2 : ageAscLe b c = true) : ageAscLe a c = true := by
  simp only [ageAscLe, decide_eq_true_eq] at h1 h2 ⊢
  omega

theorem ageAscLe_total (a b : AgedPlayer) : ageAscLe a b || ageAscLe b a := by
  simp only [ageAscLe, Bool.or_eq_true, decide_eq_true_eq]
  omega

theorem ageDescLe_trans (a b c : AgedPlayer)
    (h1 : ageDescLe a b = true) (h2 : ageDescLe b c = true) : ageDescLe a c = true := by
  simp only [ageDescLe, decide_eq_true_eq] at h1 h2 ⊢
  omega

theorem ageDescLe_total (a b : AgedPlayer) : ageDescLe a b || ageDescLe b a := by
  simp only [ageDescLe, Bool.or_eq_true, decide_eq_true_eq]
  omega

/-- Birthday exactly 23 years before `today` gives age exactly 23. -/
theorem ageOn_exact_23 (today : YMD) :
    ageOn today ⟨today.year - 23, today.month, today.day⟩ = 23 := by
  have hb : monthDayLtB (today.month, today.day) (today.month, today.day) = false := by
    simp [monthDayLtB]
  simp [ageOn, hb]

/-- C8: `young_talents` holds only under-23 players, ascending by age,
capped at 8; `experienced_players` holds only 30-plus players, descending
by age, capped at 8; a player born exactly 23 years before today (age 23)
is never in `young_talents`; a player of age exactly 30 is in the 30-plus
pool and in `experienced_players` whenever the pool is within the cap. -/
theorem squad_age_bucketing (today : YMD) (squad : List RawPlayer) :
    (young_talents today squad).length ≤ 8 ∧
    (experienced_players today squad).length ≤ 8 ∧
    (∀ p ∈ young_talents today squad, ∃ a, p.age = some a ∧ a < 23) ∧
    (∀ p ∈ experienced_players today squad, ∃ a, p.age = some a ∧ 30 ≤ a) ∧
    List.Pairwise (fun a b => ageAscLe a b = true) (young_talents today squad) ∧
    List.Pairwise (fun a b => ageDescLe a b = true) (experienced_players today squad) ∧
    (∀ p : RawPlayer, p ∈ squad →
      p.dateOfBirth = some ⟨today.year - 23, today.month, today.day⟩ →
      agedOf today p ∉ young_talents today squad) ∧
    (∀ p : AgedPlayer, p ∈ players_with_ages today squad → p.age = some 30 →
      p ∈ experiencedPool today squad ∧
      ((experiencedPool today squad).length ≤ 8 →
        p ∈ experienced_players today squad)) := by
  refine ⟨?_, ?_, ?_, ?_, ?_, ?_, ?_, ?_⟩
  · exact List.length_take_le 8 _
  · exact List.length_take_le 8 _
  · intro p hp
    have hp2 : p ∈ stableSort ageAscLe (youngPool today squad) :=
      List.take_subset 8 _ hp
    exact youngPool_age today squad p ((stableSort_perm _ _).mem_iff.mp hp2)
  · intro p hp
    have hp2 : p ∈ stableSort ageDescLe (experiencedPool today squad) :=
      List.take_subset 8 _ hp
    exact experiencedPool_age today squad p ((stableSort_perm _ _).mem_iff.mp hp2)
  · exact List.Pairwise.sublist (List.take_sublist 8 _)
      (sorted_stableSort ageAscLe_trans ageAscLe_total _)
  · exact List.Pairwise.sublist (List.take_sublist 8 _)
      (sorted_stableSort ageDescLe_trans ageDescLe_total _)
  · intro p _ hdob hmem
    have hage : (agedOf today p).age = some 23 := by
      simp [agedOf, hdob, ageOn_exact_23]
    have hp2 : agedOf today p ∈ stableSort ageAscLe (youngPool today squad) :=
      List.take_subset 8 _ hmem
    rcases youngPool_age today squad _ ((stableSort_perm _ _).mem_iff.mp hp2)
      with ⟨a, ha, hlt⟩
    rw [hage] at ha
    cases ha
    omega
  · intro p hp ha
    have hpool : p ∈ experiencedPool today squad := by
      refine List.mem_filter.mpr ⟨hp, ?_⟩
      rw [ha]
      simp
    refine ⟨hpool, ?_⟩
    intro hlen
    have hsorted_len : (stableSort ageDescLe (experiencedPool today squad)).length ≤ 8 :=
      le_of_eq_of_le (stableSort_perm _ _).length_eq hlen
    unfold experienced_players
    rw [List.take_of_length_le hsorted_len]
    exact (stableSort_perm _ _).mem_iff.mpr hpool

/-- A concrete squad: a 20-year-old, a player born exactly 23 years before
today, a 30-year-old, and a player with no date of birth. -/
def todayW : YMD := { year := 2026, month := 10, day := 12 }

def pYoung : RawPlayer :=
  { name := "A", position := "Attacker", nationality := "X",
    dateOfBirth := some { year := 2006, month := 1, day := 1 } }

def pExact23 : RawPlayer :=
  { name := "B", position := "Midfield", nationality := "X",
    dateOfBirth := some { year := 2003, month := 10, day := 12 } }

def pThirty : RawPlayer :=
  { name := "C", position := "Goalkeeper", nationality := "X",
    dateOfBirth := some { year := 1996, month := 5, day := 1 } }

def pNoDob : RawPlayer :=
  { name := "D", position := "Defence", nationality := "X", dateOfBirth := none }

def squadW : List RawPlayer := [pYoung, pExact23, pThirty, pNoDob]

/-- Witness for `squad_age_bucketing` on the concrete squad. -/
theorem squad_age_bucketing_witness :
    agedOf todayW pExact23 ∉ young_talents todayW squadW ∧
    agedOf todayW pThirty ∈ experienced_players todayW squadW ∧
    (young_talents todayW squadW).length ≤ 8 :=
  ⟨(squad_age_bucketing todayW squadW).2.2.2.2.2.2.1 pExact23 (by decide) (by decide),
   (((squad_age_bucketing todayW squadW).2.2.2.2.2.2.2 (agedOf todayW pThirty)
      (by decide) (by decide)).2 (by decide)),
   (squad_age_bucketing todayW squadW).1⟩

/-! ## The team form calculator (`calculate_team_stats`, src/app.py 331-417)

Scores and goal counters are integers; the real-valued derived metrics
(`win_percentage` and the goal averages, Python `round(x, 1)`) are
modelled exactly as integer counts of tenths, rounded half-to-even
(Python 3's rounding rule), so `66.7` is the integer `667`. The `competitions` set is modelled as a
duplicate-free list in insertion order (Python materialises the set in
unspecified order; no claim observes the order). -/

/-- An input match of the stats calculation: the `homeTeam.id`,
`awayTeam.id`, `score.fullTime` and `competition.name` fields. -/
structure FMatch where
  homeId : Option Int
  awayId : Option Int
  homeGoals : Option Int
  awayGoals : Option Int
  compName : Option String
deriving DecidableEq

/-- A home/away win-draw-loss sub-record. -/
structure SideRecord where
  wins : Nat
  draws : Nat
  losses : Nat
deriving DecidableEq

/-- Round-half-to-even of the fraction `n / d` (with `d > 0`), as
Python 3's `round` computes it on exact values: floor quotient, bumped
when the remainder exceeds half, ties going to the even integer. -/
def roundHalfEvenInt (n d : Int) : Int :=
  let q := n.fdiv d
  let r := n - q * d
  if 2 * r < d then q
  else if d < 2 * r then q + 1
  else if q % 2 = 0 then q else q + 1

/-- Python's `round(n / d, 1)`, represented exactly as a count of tenths
(so `66.7` is `667`). -/
def round1Tenths (n d : Int) : Int := roundHalfEvenInt (n * 10) d

/-- The mutable `stats` dict before the derived metrics are added. -/
structure StatsCore where
  wins : Nat
  draws : Nat
  losses : Nat
  goals_for : Int
  goals_against : Int
  clean_sheets : Nat
  form : List String
  home_record : SideRecord
  away_record : SideRecord
  competitions : List String
deriving DecidableEq

def initCore : StatsCore :=
  { wins := 0, draws := 0, losses := 0, goals_for := 0, goals_against := 0,
    clean_sheets := 0, form := [], home_record := ⟨0, 0, 0⟩,
    away_record := ⟨0, 0, 0⟩, competitions := [] }

/-- `stats['competitions'].add(name)` guarded by the truthiness check of
src/app.py 363 (a `None` or empty name is not added). -/
def addCompetition (cs : List String) (n : Option String) : List String :=
  match n with
  | some s => if s ≠ "" then (if cs.contains s then cs else cs ++ [s]) else cs
  | none => cs

/-- The loop body of src/app.py 351-403 for one match: skip when either
full-time score is missing, else accumulate goals, clean sheets, result
counters, the home/away sub-record and the (≤ 5 entries) form string. -/
def statStep (teamId : Int) (s : StatsCore) (m : FMatch) : StatsCore :=
  match m.homeGoals, m.awayGoals with
  | some hg, some ag =>
    let s1 := { s with competitions := addCompetition s.competitions m.compName }
    let isHome := m.homeId == some teamId
    let teamScore := if isHome then hg else ag
    let oppScore := if isHome then ag else hg
    let s2 := { s1 with
      goals_for := s1.goals_for + teamScore,
      goals_against := s1.goals_against + oppScore,
      clean_sheets := s1.clean_sheets + (if oppScore = 0 then 1 else 0) }
    let result := if teamScore > oppScore then "W"
                  else if teamScore < oppScore then "L" else "D"
    let s3 :=
      if teamScore > oppScore then
        { s2 with
          wins := s2.wins + 1,
          home_record := (if isHome then
              { s2.home_record with wins := s2.home_record.wins + 1 }
            else s2.home_record),
          away_record := (if isHome then s2.away_record
            else { s2.away_record with wins := s2.away_record.wins + 1 }) }
      else if teamScore < oppScore then
        { s2 with
          losses := s2.losses + 1,
          home_record := (if isHome then
              { s2.home_record with losses := s2.home_record.losses + 1 }
            else s2.home_record),
          away_record := (if isHome then s2.away_record
            else { s2.away_record with losses := s2.away_record.losses + 1 }) }
      else
        { s2 with
          draws := s2.draws + 1,
          home_record := (if isHome then
              { s2.home_record with draws := s2.home_record.draws + 1 }
            else s2.home_record),
          away_record := (if isHome then s2.away_record
            else { s2.away_record with draws := s2.away_record.draws + 1 }) }
    if s3.form.length < 5 then { s3 with form := s3.form ++ [result] } else s3
  | _, _ => s

/-- The returned stats dict; the derived metrics are present (`some`) only
when at least one match was counted. -/
structure TeamStats where
  wins : Nat
  draws : Nat
  losses : Nat
  goals_for : Int
  goals_against : Int
  clean_sheets : Nat
  form : List String
  home_record : SideRecord
  away_record : SideRecord
  competitions : List String
  win_percentage_tenths : Option Int
  points : Option Nat
  average_goals_for_tenths : Option Int
  average_goals_against_tenths : Option Int
  goal_difference : Option Int
deriving DecidableEq

/-- `calculate_team_stats` (src/app.py 331-417): empty input returns the
empty dict (`none`); otherwise the first 10 matches are accumulated and
the derived metrics are added when `wins + draws + losses > 0`. -/
def calculate_team_stats (ms : List FMatch) (teamId : Int) : Option TeamStats :=
  if ms = [] then none
  else
    let c := (ms.take 10).foldl (statStep teamId) initCore
    let total := c.wins + c.draws + c.losses
    some { wins := c.wins, draws := c.draws, losses := c.losses,
           goals_for := c.goals_for, goals_against := c.goals_against,
           clean_sheets := c.clean_sheets, form := c.form,
           home_record := c.home_record, away_record := c.away_record,
           competitions := c.competitions,
           win_percentage_tenths :=
             if 0 < total then some (round1Tenths (c.wins * 100) total)
             else none,
           points := if 0 < total then some (c.wins * 3 + c.draws) else none,
           average_goals_for_tenths :=
             if 0 < total then some (round1Tenths c.goals_for total)
             else none,
           average_goals_against_tenths :=
             if 0 < total then some (round1Tenths c.goals_against total)
             else none,
           goal_difference :=
             if 0 < total then some (c.goals_for - c.goals_against) else none }

/-! ## Theorems about the team form calculator -/

/-- C9: whenever at least one match was counted, `points = 3*wins + draws`,
`goal_difference = goals_for - goals_against`, and the win percentage is
the exact half-even rounding of `wins/total*100` to one decimal (stored in
tenths); on the spec test vector (2 wins, 1 draw, goals 5-2) the values
are `points = 7`, `win_percentage = 66.7` (667 tenths) and
`goal_difference = 3`. -/
theorem team_stats_derived (ms : List FMatch) (teamId : Int) (s : TeamStats)
    (hs : calculate_team_stats ms teamId = some s)
    (hpos : 0 < s.wins + s.draws + s.losses) :
    s.points = some (s.wins * 3 + s.draws) ∧
    s.goal_difference = some (s.goals_for - s.goals_against) ∧
    s.win_percentage_tenths =
      some (round1Tenths (s.wins * 100) (s.wins + s.draws + s.losses)) ∧
    (s.wins = 2 → s.draws = 1 → s.losses = 0 → s.goals_for = 5 →
     s.goals_against = 2 →
      s.points = some 7 ∧ s.win_percentage_tenths = some 667 ∧
      s.goal_difference = some 3) := by
  by_cases hms : ms = []
  · unfold calculate_team_stats at hs
    rw [if_pos hms] at hs
    exact absurd hs (by simp)
  · unfold calculate_team_stats at hs
    rw [if_neg hms] at hs
    simp only [Option.some.injEq] at hs
    subst hs
    simp only at hpos ⊢
    simp only [if_pos hpos]
    refine ⟨trivial, trivial, by push_cast; rfl, ?_⟩
    intro hw hd hl hgf hga
    rw [hw, hd, hl, hgf, hga]
    refine ⟨by norm_num, by decide, by norm_num⟩

/-- The spec's test vector: 2 wins and 1 draw for team 1, goals 5-2. -/
def fm1 : FMatch :=
  { homeId := some 1, awayId := some 2, homeGoals := some 3, awayGoals := some 1,
    compName := some "Premier League" }

def fm2 : FMatch :=
  { homeId := some 2, awayId := some 1, homeGoals := some 0, awayGoals := some 1,
    compName := some "Premier League" }

def fm3 : FMatch :=
  { homeId := some 1, awayId := some 3, homeGoals := some 1, awayGoals := some 1,
    compName := some "FA Cup" }

def msC9 : List FMatch := [fm1, fm2, fm3]

/-- The stats record computed for `msC9`. -/
def sC9 : TeamStats :=
  { wins := 2, draws := 1, losses := 0, goals_for := 5, goals_against := 2,
    clean_sheets := 1, form := ["W", "W", "D"],
    home_record := ⟨1, 1, 0⟩, away_record := ⟨1, 0, 0⟩,
    competitions := ["Premier League", "FA Cup"],
    win_percentage_tenths := some 667, points := some 7,
    average_goals_for_tenths := some 17, average_goals_against_tenths := some 7,
    goal_difference := some 3 }

/-- Witness for `team_stats_derived` on the spec's 3-match test vector. -/
theorem team_stats_derived_witness :
    calculate_team_stats msC9 1 = some sC9 ∧
    sC9.points = some 7 ∧ sC9.win_percentage_tenths = some 667 ∧
    sC9.goal_difference = some 3 :=
  ⟨by decide,
   (team_stats_derived msC9 1 sC9 (by decide) (by decide)).2.2.2
     (by decide) (by decide) (by decide) (by decide) (by decide)⟩
